import Mathlib

/-!
Verification of the workflow-sample repository against its specification.

The repository consists of example scripts built on an external agent SDK.
The executors, edge conditions, middleware, message store, context provider
and tool functions below are translated from the Python sources under the
same names.  The workflow scheduler, the agent-as-executor adapter and the
approval-gated run loop live in the external SDK; they are modelled from
the specification (sections 4.4, 4.5, 6 and 9) where noted.
-/

/-- A chat message: a role string and a text payload.  Python message texts
that are absent are modelled as the empty string, matching Python truthiness
of the text attribute. -/
structure ChatMessage where
  role : String
  text : String
deriving DecidableEq, Repr

/-! ## Workflow scheduler core

Modelled from the spec: the Executor / Edge / WorkflowGraph / Scheduler
model of sections 3 and 4.4, which the samples exercise through the external
SDK (WorkflowBuilder, Workflow.run).  Handlers map an input message to either
an error (a raised exception, fatal to the run per section 4.1) or a pair of
sent messages and yielded workflow outputs.  The scheduler delivers messages
FIFO, evaluates every outgoing edge condition on each sent message, records
an event trace, and ends idle when no pending work remains. -/

structure WEdge (Msg : Type) where
  source : String
  target : String
  cond : Msg → Bool

structure WExecutor (Msg Out : Type) where
  id : String
  handle : Msg → Except String (List Msg × List Out)

structure WGraph (Msg Out : Type) where
  executors : List (WExecutor Msg Out)
  edges : List (WEdge Msg)
  start : String

/-- Events of the run trace (spec section 4.4, "Events"). -/
inductive WEvent (Msg Out : Type) where
  | started (id : String)
  | completed (id : String)
  | delivered (target : String) (msg : Msg)
  | outputYielded (out : Out)
deriving DecidableEq, Repr

/-- Final state of a run: idle (pending set empty), failed (handler raised),
or fuel exhausted (not reachable for the sample graphs with enough fuel). -/
inductive FinalState where
  | idle
  | failed
  | pendingExhausted
deriving DecidableEq, Repr

/-- RunResult of the spec data model: event trace, terminal outputs, final
state. -/
structure RunResult (Msg Out : Type) where
  events : List (WEvent Msg Out)
  outputs : List Out
  final_state : FinalState

/-- Look up an executor of the graph by id. -/
def findExecutor (g : WGraph Msg Out) (id : String) : Option (WExecutor Msg Out) :=
  g.executors.find? (fun ex => ex.id == id)

/-- Modelled from the spec: each sent message is queued for every edge out of
the current executor whose condition accepts the message (section 4.4,
"Effect application"). -/
def routeMessage (g : WGraph Msg Out) (src : String) (m : Msg) : List (String × Msg) :=
  (g.edges.filter (fun e => e.source == src && e.cond m)).map (fun e => (e.target, m))

/-- Modelled from the spec: the FIFO scheduler loop of section 4.4, with a
fuel argument for termination.  Pops the oldest pending pair, runs the
handler, applies its effects, and appends events in order. -/
def runLoop (g : WGraph Msg Out) :
    Nat → List (String × Msg) → List (WEvent Msg Out) → List Out → RunResult Msg Out
  | _, [], events, outs => ⟨events, outs, .idle⟩
  | 0, _ :: _, events, outs => ⟨events, outs, .pendingExhausted⟩
  | fuel + 1, (id, m) :: rest, events, outs =>
    match findExecutor g id with
    | none => ⟨events, outs, .failed⟩
    | some ex =>
      match ex.handle m with
      | .error _ => ⟨events ++ [.started id], outs, .failed⟩
      | .ok (sent, yielded) =>
        let newPairs := (sent.map (fun msg => routeMessage g id msg)).flatten
        runLoop g fuel (rest ++ newPairs)
          (events ++ [.started id] ++ yielded.map .outputYielded
            ++ newPairs.map (fun p => .delivered p.1 p.2) ++ [.completed id])
          (outs ++ yielded)

/-- Modelled from the spec: workflow run entry point (section 6) — the start
executor is pending with the initial input, then the loop runs to idleness. -/
def runW (g : WGraph Msg Out) (fuel : Nat) (input : Msg) : RunResult Msg Out :=
  runLoop g fuel [(g.start, input)] [] []

/-! ## 04-workflows/01-basic.py : the two-node sequential workflow -/

/-- Python str.upper on the character sequence of a string (the sample data
is ASCII, where upper-casing is per-character). -/
def pyUpper (s : String) : String :=
  String.mk (s.data.map Char.toUpper)

/-- Handler of the class-based UpperCase executor: uppercase the input and
send it downstream (translated from UpperCase.to_upper_case). -/
def UpperCase.to_upper_case (text : String) : Except String (List String × List String) :=
  .ok ([pyUpper text], [])

/-- Handler of the function-based executor reverse_text: reverse the input
string and yield it as workflow output. -/
def reverse_text (text : String) : Except String (List String × List String) :=
  .ok ([], [String.mk text.data.reverse])

/-- The graph built in main of 01-basic.py: upper_case_executor is the start
executor, one unconditional edge to reverse_text_executor. -/
def basicWorkflow : WGraph String String :=
  { executors := [⟨"upper_case_executor", UpperCase.to_upper_case⟩,
                  ⟨"reverse_text_executor", reverse_text⟩],
    edges := [⟨"upper_case_executor", "reverse_text_executor", fun _ => true⟩],
    start := "upper_case_executor" }

/-! ## 04-workflows/03-control_flow.py : conditional routing on spam detection -/

/-- DetectionResult: structured output of the spam-detection agent
(is_spam drives routing, reason is the rationale, email_content carries the
original email). -/
structure DetectionResult where
  is_spam : Bool
  reason : String
  email_content : String
deriving DecidableEq, Repr

/-- EmailResponse: structured output of the email assistant. -/
structure EmailResponse where
  response : String
deriving DecidableEq, Repr

/-- Messages travelling through the conditional-routing graph.  A Python
value is either an AgentExecutorResponse (carrying
agent_run_response.text), an AgentExecutorRequest (messages plus
should_respond), or any other value (the isinstance guard in the condition
distinguishes only AgentExecutorResponse from the rest). -/
inductive FlowMsg where
  | response (text : String)
  | request (messages : List ChatMessage) (should_respond : Bool)
  | other
deriving DecidableEq, Repr

/-- Edge predicate factory translated from get_condition.  Parsing of the
agent JSON text (pydantic model_validate_json, an external-library
collaborator) is abstracted as a parse function returning none where the
Python call raises.  A non-AgentExecutorResponse message passes the edge; a
response whose text parses routes on is_spam matching expected_result; a
parse failure returns false (the edge does not fire). -/
def get_condition (parseD : String → Option DetectionResult) (expected_result : Bool)
    (message : FlowMsg) : Bool :=
  match message with
  | .response text =>
    match parseD text with
    | some detection => detection.is_spam == expected_result
    | none => false
  | _ => true

/-- Handler translated from handle_email_response (executor id send_email):
parse a validated EmailResponse and yield the workflow output; a parse
failure raises. -/
def handle_email_response (parseE : String → Option EmailResponse)
    (m : FlowMsg) : Except String (List FlowMsg × List String) :=
  match m with
  | .response text =>
    match parseE text with
    | some email_response => .ok ([], ["Email sent:\n" ++ email_response.response])
    | none => .error "ValidationError"
  | _ => .error "TypeError"

/-- Handler translated from handle_spam_classifier_response (executor id
handle_spam): confirm the DetectionResult and yield the spam notice, or
raise RuntimeError when the message is not spam. -/
def handle_spam_classifier_response (parseD : String → Option DetectionResult)
    (m : FlowMsg) : Except String (List FlowMsg × List String) :=
  match m with
  | .response text =>
    match parseD text with
    | some detection =>
      if detection.is_spam then
        .ok ([], ["Email marked as spam: " ++ detection.reason])
      else
        .error "This executor should only handle spam messages."
    | none => .error "ValidationError"
  | _ => .error "TypeError"

/-- Handler translated from to_email_assistant_request: parse the
DetectionResult and forward its email_content as a user message in a new
AgentExecutorRequest. -/
def to_email_assistant_request (parseD : String → Option DetectionResult)
    (m : FlowMsg) : Except String (List FlowMsg × List String) :=
  match m with
  | .response text =>
    match parseD text with
    | some detection =>
      .ok ([.request [⟨"user", detection.email_content⟩] true], [])
    | none => .error "ValidationError"
  | _ => .error "TypeError"

/-- Modelled from the spec: an AgentExecutor (section 4.5) invokes the
external agent on the incoming request and emits an AgentExecutorResponse
carrying the reply text; the external reply is an oracle parameter. -/
def agentExecutorHandle (reply : FlowMsg → String)
    (m : FlowMsg) : Except String (List FlowMsg × List String) :=
  .ok ([.response (reply m)], [])

/-- The graph built in main of 03-control_flow.py: start at the spam
detector; the not-spam edge goes to the request transformer, then the email
assistant, then send_email; the spam edge goes to handle_spam. -/
def controlFlowWorkflow (parseD : String → Option DetectionResult)
    (parseE : String → Option EmailResponse)
    (classifierReply assistantReply : FlowMsg → String) : WGraph FlowMsg String :=
  { executors := [⟨"spam_detection_agent", agentExecutorHandle classifierReply⟩,
                  ⟨"to_email_assistant_request", to_email_assistant_request parseD⟩,
                  ⟨"email_assistant_agent", agentExecutorHandle assistantReply⟩,
                  ⟨"send_email", handle_email_response parseE⟩,
                  ⟨"handle_spam", handle_spam_classifier_response parseD⟩],
    edges := [⟨"spam_detection_agent", "to_email_assistant_request", get_condition parseD false⟩,
              ⟨"to_email_assistant_request", "email_assistant_agent", fun _ => true⟩,
              ⟨"email_assistant_agent", "send_email", fun _ => true⟩,
              ⟨"spam_detection_agent", "handle_spam", get_condition parseD true⟩],
    start := "spam_detection_agent" }

/-! ## 03-extras/04-middleware.py : the chat security middleware -/

/-- A chat response: the list of messages it carries. -/
structure ChatResponse where
  messages : List ChatMessage
deriving DecidableEq, Repr

/-- The in-flight chat context handed to chat middleware: the request
messages, the (initially unset) result, and the terminate flag. -/
structure ChatContext where
  messages : List ChatMessage
  result : Option ChatResponse
  terminate : Bool
deriving DecidableEq, Repr

/-- Python str.lower on the character sequence of a string. -/
def pyLower (s : String) : String :=
  String.mk (s.data.map Char.toLower)

/-- Substring occurrence on character lists (the Python in operator for
strings): the pattern occurs at the head or inside the tail. -/
def containsSub (s pat : List Char) : Bool :=
  match s with
  | [] => List.isPrefixOf pat []
  | _ :: rest => List.isPrefixOf pat s || containsSub rest pat

/-- Python substring membership (the in operator). -/
def containsTerm (s pat : String) : Bool :=
  containsSub s.data pat.data

/-- The blocked term of the security middleware. -/
def blocked_term : String := "bitcoin"

/-- The loop guard of security_middleware: a message with non-empty text
whose lower-cased text contains the blocked term. -/
def isBlockedMessage (m : ChatMessage) : Bool :=
  m.text != "" && containsTerm (pyLower m.text) blocked_term

/-- The fixed rejection response the middleware installs on a block. -/
def rejection_response : ChatResponse :=
  ⟨[⟨"assistant", "Sorry, I cannot assist with that request."⟩]⟩

/-- Translated from security_middleware: the for loop stops at the first
message containing the blocked term, sets the result to the rejection
response and the terminate flag, and returns without calling the
continuation; with no blocked message it calls the continuation.  The
second component counts continuation invocations. -/
def security_middleware (next : ChatContext → ChatContext)
    (context : ChatContext) : ChatContext × Nat :=
  match context.messages.find? isBlockedMessage with
  | some _ => ({ context with result := some rejection_response, terminate := true }, 0)
  | none => (next context, 1)

/-! ## 03-extras/02-chat_message_store.py : the custom message store -/

/-- The serialized state of a message store (agent_framework
ChatMessageStoreState, treated at the boundary: to_dict and from_dict are
modelled as the identity on this record). -/
structure ChatMessageStoreState where
  messages : List ChatMessage
deriving DecidableEq, Repr

/-- The custom in-memory store: its private message list. -/
structure CustomChatMessageStore where
  _messages : List ChatMessage
deriving DecidableEq, Repr

/-- Translated from CustomChatMessageStore.list_messages. -/
def CustomChatMessageStore.list_messages (store : CustomChatMessageStore) : List ChatMessage :=
  store._messages

/-- Translated from CustomChatMessageStore.serialize: wrap the current
messages in a ChatMessageStoreState dict (a dict value; none models a falsy
serialized value such as None). -/
def CustomChatMessageStore.serialize (store : CustomChatMessageStore) :
    Option ChatMessageStoreState :=
  some ⟨store._messages⟩

/-- Translated from CustomChatMessageStore.update_from_state: a falsy
serialized state is ignored; otherwise the state messages, when non-empty,
are appended to the store. -/
def CustomChatMessageStore.update_from_state (store : CustomChatMessageStore)
    (serialized_store_state : Option ChatMessageStoreState) : CustomChatMessageStore :=
  match serialized_store_state with
  | none => store
  | some state =>
    if state.messages.isEmpty then store
    else { store with _messages := store._messages ++ state.messages }

/-- Translated from CustomChatMessageStore.deserialize: build a fresh empty
store and update it from the serialized state. -/
def CustomChatMessageStore.deserialize
    (serialized_store_state : Option ChatMessageStoreState) : CustomChatMessageStore :=
  CustomChatMessageStore.update_from_state ⟨[]⟩ serialized_store_state

/-! ## 03-extras/03-context_provider.py : the UserInfoMemory context provider -/

/-- The structured user record the provider caches (Python Optional fields). -/
structure UserInfo where
  name : Option String
  age : Option Int
deriving DecidableEq, Repr

/-- An apostrophe, as a one-character string. -/
def apos : String := String.singleton (Char.ofNat 39)

/-- Instruction emitted while the name is unknown. -/
def askNameInstruction : String :=
  "Ask the user for their name and politely decline to answer any questions until they provide it."

/-- Instruction emitted while the age is unknown. -/
def askAgeInstruction : String :=
  "Ask the user for their age and politely decline to answer any questions until they provide it."

/-- Instruction stating a known name. -/
def nameInstruction (n : String) : String :=
  "The user" ++ apos ++ "s name is " ++ n ++ "."

/-- Instruction stating a known age. -/
def ageInstruction (a : Int) : String :=
  "The user" ++ apos ++ "s age is " ++ toString a ++ "."

/-- Translated from UserInfoMemory.invoking: build the instruction list —
for each of name and age, either the ask instruction (field still null) or
the statement of the known value. -/
def UserInfoMemory.invoking (user_info : UserInfo) : List String :=
  (match user_info.name with
   | none => [askNameInstruction]
   | some n => [nameInstruction n]) ++
  (match user_info.age with
   | none => [askAgeInstruction]
   | some a => [ageInstruction a])

/-- The Context the provider returns: the instructions joined by spaces. -/
def UserInfoMemory.invokingContext (user_info : UserInfo) : String :=
  String.intercalate " " (UserInfoMemory.invoking user_info)

/-- Python truthiness of an optional string (None and the empty string are
falsy). -/
def strTruthy : Option String → Bool
  | some s => s != ""
  | none => false

/-- Python truthiness of an optional integer (None and 0 are falsy). -/
def intTruthy : Option Int → Bool
  | some a => a != 0
  | none => false

/-- The user messages of a request (messages whose role is user). -/
def userMessages (msgs : List ChatMessage) : List ChatMessage :=
  msgs.filter (fun m => m.role == "user")

/-- Translated from UserInfoMemory.invoked.  The external structured-output
extraction call (and its possible failure, swallowed by the except block) is
an oracle: none models an extraction failure or a non-UserInfo result, some
v the extracted record.  Extraction is attempted only when a field is still
null and user messages exist; each field is set only when currently null and
the extracted value is truthy. -/
def UserInfoMemory.invoked (user_info : UserInfo) (request_messages : List ChatMessage)
    (extraction : Option UserInfo) : UserInfo :=
  if (user_info.name.isNone || user_info.age.isNone)
      && !(userMessages request_messages).isEmpty then
    match extraction with
    | none => user_info
    | some v =>
      let info1 :=
        if user_info.name.isNone && strTruthy v.name then
          { user_info with name := v.name }
        else user_info
      if info1.age.isNone && intTruthy v.age then
        { info1 with age := v.age }
      else info1
  else user_info

/-! ## 01-agent_types/04-local_tools.py : payment and loan tools

Python float amounts are modelled as rationals; the concrete inputs the
claims touch are exactly representable, so the subtraction below agrees
with the source. -/

/-- The module-level shared state: the balance variable initialised to 100. -/
structure PaymentState where
  balance : Rat
deriving DecidableEq, Repr

/-- The initial module-level balance. -/
def initialBalance : PaymentState := ⟨100⟩

/-- Translated from get_balance: report the current balance. -/
def get_balance (s : PaymentState) : String :=
  "The balance for is $" ++ toString s.balance ++ "."

/-- Translated from _make_payment: subtract the amount from the shared
balance (no non-negativity check) and return the confirmation string. -/
def _make_payment (amount : Rat) (reason : String) (s : PaymentState) :
    String × PaymentState :=
  ("Processing payment of $" ++ toString amount ++ " for " ++ reason ++ ".",
   ⟨s.balance - amount⟩)

/-- Translated from _get_loan (the approval-gated tool): add the amount to
the shared balance and return the confirmation string. -/
def _get_loan (amount : Rat) (s : PaymentState) : String × PaymentState :=
  ("Processing loan request of $" ++ toString amount ++ ".",
   ⟨s.balance + amount⟩)

/-! ## Approval-gated runs -/

/-- A pending function call surfaced to the user for approval. -/
structure FunctionCall where
  name : String
  amount : Rat
deriving DecidableEq, Repr

/-- A user-input request carrying the function call awaiting approval. -/
structure UserInputRequest where
  function_call : FunctionCall
deriving DecidableEq, Repr

/-- The result of an agent run: the final text (none while suspended) and
the pending user-input requests. -/
structure AgentRunResult where
  text : Option String
  user_input_requests : List UserInputRequest
deriving DecidableEq, Repr

/-- Modelled from the spec: the external agent run against an
approval-gated tool (sections 6 and 9, cooperative suspension).  With no
approval answer in the input, the run suspends: it returns a pending
user-input request, no final text, and the tool body does not execute.
With an approval answer, the run completes: an approved call executes the
tool body (_get_loan) and reports its message; a denied call completes
without executing the body. -/
def runWithApprovalTool (amount : Rat) (approval : Option Bool) (s : PaymentState) :
    AgentRunResult × PaymentState :=
  match approval with
  | none => (⟨none, [⟨⟨"get_loan", amount⟩⟩]⟩, s)
  | some true =>
    let r := _get_loan amount s
    (⟨some r.1, []⟩, r.2)
  | some false => (⟨some "The loan request was not approved.", []⟩, s)

/-! ## Concrete sample parsers and inputs used by witnesses -/

/-- A concrete DetectionResult parser recognising two fixed texts (a spam
verdict and a non-spam verdict) and rejecting everything else. -/
def sampleDetections (s : String) : Option DetectionResult :=
  if s = "spamtext" then some ⟨true, "contains ads", "the email"⟩
  else if s = "oktext" then some ⟨false, "legitimate", "the email"⟩
  else none

/-- A concrete EmailResponse parser recognising one fixed text. -/
def sampleEmails (s : String) : Option EmailResponse :=
  if s = "replytext" then some ⟨"Thanks, received."⟩ else none

/-! ## Theorems -/

/-- C1: for the two-node workflow whose start executor uppercases its string
input and forwards it, and whose second executor reverses its string input
and yields it as workflow output, running the workflow on the input
"hello world" yields exactly the single output "DLROW OLLEH" and ends in the
idle final state. -/
theorem C1_basic_workflow_run :
    (runW basicWorkflow 5 "hello world").outputs = ["DLROW OLLEH"]
    ∧ (runW basicWorkflow 5 "hello world").final_state = FinalState.idle := by
  decide

/-- C6: deserializing the value produced by serialize yields a store whose
list_messages returns the same messages in the same order as the original
store. -/
theorem C6_store_roundtrip (store : CustomChatMessageStore) :
    (CustomChatMessageStore.deserialize store.serialize).list_messages
      = store.list_messages := by
  obtain ⟨msgs⟩ := store
  cases msgs <;>
    simp [CustomChatMessageStore.deserialize, CustomChatMessageStore.serialize,
      CustomChatMessageStore.update_from_state, CustomChatMessageStore.list_messages]

/-- C7: a run invoking the approval-gated loan tool with no approval answer
suspends — it returns a pending user-input request naming the tool call, no
final text, and the tool body has not run (state unchanged); the resumed run
carrying a positive approval answer has no pending requests, carries the
final text, and only then has the tool body (_get_loan) executed. -/
theorem C7_approval_gate (amount : Rat) (s : PaymentState) :
    ((runWithApprovalTool amount none s).1.user_input_requests
        = [⟨⟨"get_loan", amount⟩⟩]
      ∧ (runWithApprovalTool amount none s).1.text = none
      ∧ (runWithApprovalTool amount none s).2 = s)
    ∧ ((runWithApprovalTool amount (some true) s).1.user_input_requests = []
      ∧ (runWithApprovalTool amount (some true) s).1.text = some (_get_loan amount s).1
      ∧ (runWithApprovalTool amount (some true) s).2.balance = s.balance + amount) := by
  exact ⟨⟨rfl, rfl, rfl⟩, ⟨rfl, rfl, rfl⟩⟩

/-- C8: _make_payment subtracts the amount from the shared balance with no
non-negativity check and returns the confirmation string; from the initial
balance of 100, a payment of 150 drives the balance negative; get_balance
reports whatever the current balance is. -/
theorem C8_make_payment_unguarded :
    (∀ (a : Rat) (r : String) (s : PaymentState),
        ((_make_payment a r s).2).balance = s.balance - a
        ∧ (_make_payment a r s).1
            = "Processing payment of $" ++ toString a ++ " for " ++ r ++ ".")
    ∧ ((_make_payment 150 "Gym subscription" initialBalance).2).balance < 0
    ∧ (∀ s : PaymentState,
        get_balance s = "The balance for is $" ++ toString s.balance ++ ".") := by
  refine ⟨fun a r s => ⟨rfl, rfl⟩, ?_, fun s => rfl⟩
  show (100 : Rat) - 150 < 0
  norm_num

/-- Helper: a message whose lower-cased text contains the blocked term
satisfies the middleware loop guard (its text is necessarily non-empty). -/
theorem isBlockedMessage_of_contains (m : ChatMessage)
    (h : containsTerm (pyLower m.text) blocked_term = true) :
    isBlockedMessage m = true := by
  by_cases hm : m.text = ""
  · rw [hm] at h
    exact absurd h (by decide)
  · simp [isBlockedMessage, h, hm]

/-- C5: if some message of the chat context contains the blocked term
"bitcoin" case-insensitively, security_middleware sets the result to the
fixed rejection response and the terminate flag without invoking the
continuation (zero invocations); otherwise it returns exactly the
continuation's context, invoking it exactly once, leaving result and
terminate to the continuation. -/
theorem C5_security_middleware (next : ChatContext → ChatContext) (ctx : ChatContext) :
    ((∃ m ∈ ctx.messages, containsTerm (pyLower m.text) blocked_term = true) →
      security_middleware next ctx
        = ({ ctx with result := some rejection_response, terminate := true }, 0))
    ∧ ((∀ m ∈ ctx.messages, containsTerm (pyLower m.text) blocked_term = false) →
      security_middleware next ctx = (next ctx, 1)) := by
  constructor
  · rintro ⟨m, hm, hc⟩
    have hsome : (ctx.messages.find? isBlockedMessage).isSome :=
      List.find?_isSome.mpr ⟨m, hm, isBlockedMessage_of_contains m hc⟩
    obtain ⟨m', hm'⟩ := Option.isSome_iff_exists.mp hsome
    simp [security_middleware, hm']
  · intro hall
    have hnone : ctx.messages.find? isBlockedMessage = none := by
      apply List.find?_eq_none.mpr
      intro x hx
      simp [isBlockedMessage, hall x hx]
    simp [security_middleware, hnone]

/-- A chat context whose single message mentions the blocked term. -/
def blockedCtx : ChatContext := ⟨[⟨"user", "I want to know about bitcoin."⟩], none, false⟩

/-- A chat context whose single message is clean. -/
def cleanCtx : ChatContext := ⟨[⟨"user", "What is the weather in Zurich"⟩], none, false⟩

/-- C5 witness: the middleware blocks the bitcoin query without calling the
continuation and passes the weather query to the continuation once. -/
theorem C5_security_middleware_witness :
    (∃ m ∈ blockedCtx.messages, containsTerm (pyLower m.text) blocked_term = true)
    ∧ security_middleware id blockedCtx
        = ({ blockedCtx with result := some rejection_response, terminate := true }, 0)
    ∧ security_middleware id cleanCtx = (id cleanCtx, 1) :=
  ⟨by decide, (C5_security_middleware id blockedCtx).1 (by decide),
   (C5_security_middleware id cleanCtx).2 (by decide)⟩

/-- C9: UserInfoMemory is write-once monotone — once name (respectively age)
is non-null no call to invoked changes it; an extraction failure leaves
user_info unchanged; and invoking emits, for each field, the ask instruction
exactly when the field is still null and the statement of the known value
otherwise. -/
theorem C9_user_info_memory (info : UserInfo) (msgs : List ChatMessage)
    (ext : Option UserInfo) :
    (∀ n, info.name = some n → (UserInfoMemory.invoked info msgs ext).name = some n)
    ∧ (∀ a, info.age = some a → (UserInfoMemory.invoked info msgs ext).age = some a)
    ∧ (ext = none → UserInfoMemory.invoked info msgs ext = info)
    ∧ (info.name = none → info.age = none →
        UserInfoMemory.invoking info = [askNameInstruction, askAgeInstruction])
    ∧ (∀ n, info.name = some n → info.age = none →
        UserInfoMemory.invoking info = [nameInstruction n, askAgeInstruction])
    ∧ (∀ a, info.name = none → info.age = some a →
        UserInfoMemory.invoking info = [askNameInstruction, ageInstruction a])
    ∧ (∀ n a, info.name = some n → info.age = some a →
        UserInfoMemory.invoking info = [nameInstruction n, ageInstruction a]) := by
  obtain ⟨name, age⟩ := info
  refine ⟨?_, ?_, ?_, ?_, ?_, ?_, ?_⟩
  · rintro n rfl
    cases ext with
    | none => simp [UserInfoMemory.invoked]
    | some v =>
      simp only [UserInfoMemory.invoked]
      split
      · split
        · simp_all
        · split <;> rfl
      · rfl
  · rintro a rfl
    cases ext with
    | none => simp [UserInfoMemory.invoked]
    | some v =>
      simp only [UserInfoMemory.invoked]
      split
      · split <;> simp
      · rfl
  · rintro rfl
    simp only [UserInfoMemory.invoked]
    split <;> rfl
  · rintro rfl rfl; rfl
  · rintro n rfl rfl; rfl
  · rintro a rfl rfl; rfl
  · rintro n a rfl rfl; rfl

/-- C9 witness: with both fields already known, an extraction proposing
different values changes nothing, an extraction failure changes nothing, and
invoking states the known name and age. -/
theorem C9_user_info_memory_witness :
    (UserInfoMemory.invoked ⟨some "Bob", some 27⟩ [⟨"user", "hi"⟩]
        (some ⟨some "Eve", some 5⟩)).name = some "Bob"
    ∧ (UserInfoMemory.invoked ⟨some "Bob", some 27⟩ [⟨"user", "hi"⟩]
        (some ⟨some "Eve", some 5⟩)).age = some 27
    ∧ UserInfoMemory.invoked ⟨none, some 27⟩ [⟨"user", "hi"⟩] none = ⟨none, some 27⟩
    ∧ UserInfoMemory.invoking ⟨some "Bob", some 27⟩
        = [nameInstruction "Bob", ageInstruction 27] :=
  ⟨(C9_user_info_memory ⟨some "Bob", some 27⟩ [⟨"user", "hi"⟩]
      (some ⟨some "Eve", some 5⟩)).1 "Bob" rfl,
   (C9_user_info_memory ⟨some "Bob", some 27⟩ [⟨"user", "hi"⟩]
      (some ⟨some "Eve", some 5⟩)).2.1 27 rfl,
   (C9_user_info_memory ⟨none, some 27⟩ [⟨"user", "hi"⟩] none).2.2.1 rfl,
   (C9_user_info_memory ⟨some "Bob", some 27⟩ [] none).2.2.2.2.2.2 "Bob" 27 rfl rfl⟩

/-- C10: for every response whose text parses as a DetectionResult,
handle_spam_classifier_response yields the output "Email marked as spam: "
followed by the reason when is_spam is true, and raises a RuntimeError —
yielding no output — when is_spam is false. -/
theorem C10_handle_spam_contract (parseD : String → Option DetectionResult)
    (text : String) (d : DetectionResult) (h : parseD text = some d) :
    (d.is_spam = true →
      handle_spam_classifier_response parseD (FlowMsg.response text)
        = .ok ([], ["Email marked as spam: " ++ d.reason]))
    ∧ (d.is_spam = false →
      handle_spam_classifier_response parseD (FlowMsg.response text)
        = .error "This executor should only handle spam messages.") := by
  constructor <;> intro hs <;> simp [handle_spam_classifier_response, h, hs]

/-- C10 witness: on the sample parser the spam verdict yields the spam
notice and the non-spam verdict raises. -/
theorem C10_handle_spam_contract_witness :
    sampleDetections "spamtext" = some ⟨true, "contains ads", "the email"⟩
    ∧ sampleDetections "oktext" = some ⟨false, "legitimate", "the email"⟩
    ∧ handle_spam_classifier_response sampleDetections (FlowMsg.response "spamtext")
        = .ok ([], ["Email marked as spam: contains ads"])
    ∧ handle_spam_classifier_response sampleDetections (FlowMsg.response "oktext")
        = .error "This executor should only handle spam messages." :=
  ⟨by decide, by decide,
   (C10_handle_spam_contract sampleDetections "spamtext"
      ⟨true, "contains ads", "the email"⟩ (by decide)).1 rfl,
   (C10_handle_spam_contract sampleDetections "oktext"
      ⟨false, "legitimate", "the email"⟩ (by decide)).2 rfl⟩

/-- C3 counterexample: with a parser that accepts no text at all, a message
that is not an AgentExecutorResponse — which therefore cannot be interpreted
as a structured DetectionResult — makes both condition predicates return
true, not false: the type guard in get_condition deliberately lets non
response messages pass the edge. -/
theorem C3_fail_closed_counterexample :
    get_condition (fun _ => none) true FlowMsg.other = true
    ∧ get_condition (fun _ => none) false FlowMsg.other = true :=
  ⟨rfl, rfl⟩

/-- C3 amended: every condition predicate produced by get_condition
evaluates totally (some boolean is returned on every constructor of the
message type); a message that is an AgentExecutorResponse whose text fails
to parse as a DetectionResult yields false, so the edge does not fire; a
message that is not an AgentExecutorResponse yields true — the guard passes
the edge rather than failing closed. -/
theorem C3_condition_total_amended (parseD : String → Option DetectionResult)
    (expected_result : Bool) :
    (∀ text, parseD text = none →
      get_condition parseD expected_result (FlowMsg.response text) = false)
    ∧ (∀ msgs b, get_condition parseD expected_result (FlowMsg.request msgs b) = true)
    ∧ (get_condition parseD expected_result FlowMsg.other = true) :=
  ⟨fun _ h => by simp [get_condition, h], fun _ _ => rfl, rfl⟩

/-- C3 witness: the sample parser rejects an arbitrary text and the
condition then fails closed on a response message carrying it. -/
theorem C3_condition_total_amended_witness :
    sampleDetections "garbage" = none
    ∧ get_condition sampleDetections true (FlowMsg.response "garbage") = false :=
  ⟨by decide, (C3_condition_total_amended sampleDetections true).1 "garbage" (by decide)⟩

/-- C4: condition evaluation is deterministic and side-effect free in the
routing model — evaluating the same predicate twice on the same message
gives the same boolean, and a message delivered by routeMessage is exactly
the message the conditions were evaluated on, unchanged. -/
theorem C4_condition_idempotent (parseD : String → Option DetectionResult)
    (expected_result : Bool) (m : FlowMsg)
    (g : WGraph FlowMsg String) (src : String) :
    get_condition parseD expected_result m = get_condition parseD expected_result m
    ∧ ∀ p ∈ routeMessage g src m, p.2 = m := by
  refine ⟨rfl, ?_⟩
  intro p hp
  simp only [routeMessage, List.mem_map, List.mem_filter] at hp
  obtain ⟨e, _, rfl⟩ := hp
  rfl

/-- C4 witness: in the conditional-routing graph built over the sample
parsers, the non-spam verdict is delivered to the request transformer
unchanged. -/
theorem C4_condition_idempotent_witness :
    ("to_email_assistant_request", FlowMsg.response "oktext")
      ∈ routeMessage (controlFlowWorkflow sampleDetections sampleEmails
          (fun _ => "oktext") (fun _ => "replytext"))
          "spam_detection_agent" (FlowMsg.response "oktext")
    ∧ (("to_email_assistant_request", FlowMsg.response "oktext") : String × FlowMsg).2
        = FlowMsg.response "oktext" :=
  ⟨by decide,
   (C4_condition_idempotent sampleDetections true (FlowMsg.response "oktext")
      (controlFlowWorkflow sampleDetections sampleEmails
        (fun _ => "oktext") (fun _ => "replytext")) "spam_detection_agent").2
     ("to_email_assistant_request", FlowMsg.response "oktext") (by decide)⟩

/-- C2: for every classifier response whose text parses as a
DetectionResult, the condition from get_condition(False) holds exactly when
is_spam is false and the condition from get_condition(True) holds exactly
when is_spam is true; consequently, when the classifier reply to the run
input parses as a non-spam verdict, the complete run of the
conditional-routing workflow never delivers a message to the spam-branch
executor handle_spam and never starts it. -/
theorem C2_conditional_routing (parseD : String → Option DetectionResult)
    (parseE : String → Option EmailResponse)
    (classifierReply assistantReply : FlowMsg → String)
    (m0 : FlowMsg) (text : String) (d d0 : DetectionResult)
    (htext : parseD text = some d)
    (h0 : parseD (classifierReply m0) = some d0)
    (hspam : d0.is_spam = false) :
    (get_condition parseD false (FlowMsg.response text) = true ↔ d.is_spam = false)
    ∧ (get_condition parseD true (FlowMsg.response text) = true ↔ d.is_spam = true)
    ∧ (∀ msg, WEvent.delivered "handle_spam" msg
        ∉ (runW (controlFlowWorkflow parseD parseE classifierReply assistantReply)
            10 m0).events)
    ∧ WEvent.started "handle_spam"
        ∉ (runW (controlFlowWorkflow parseD parseE classifierReply assistantReply)
            10 m0).events := by
  refine ⟨by simp [get_condition, htext], by simp [get_condition, htext], ?_, ?_⟩
  · intro msg
    cases hE : parseE (assistantReply (FlowMsg.request [⟨"user", d0.email_content⟩] true)) with
    | none =>
      simp [runW, runLoop, controlFlowWorkflow, findExecutor, List.find?, routeMessage,
        agentExecutorHandle, to_email_assistant_request, handle_email_response,
        get_condition, h0, hspam, hE]
    | some e =>
      simp [runW, runLoop, controlFlowWorkflow, findExecutor, List.find?, routeMessage,
        agentExecutorHandle, to_email_assistant_request, handle_email_response,
        get_condition, h0, hspam, hE]
  · cases hE : parseE (assistantReply (FlowMsg.request [⟨"user", d0.email_content⟩] true)) with
    | none =>
      simp [runW, runLoop, controlFlowWorkflow, findExecutor, List.find?, routeMessage,
        agentExecutorHandle, to_email_assistant_request, handle_email_response,
        get_condition, h0, hspam, hE]
    | some e =>
      simp [runW, runLoop, controlFlowWorkflow, findExecutor, List.find?, routeMessage,
        agentExecutorHandle, to_email_assistant_request, handle_email_response,
        get_condition, h0, hspam, hE]

/-- C2 witness: with the sample parsers, an oracle classifier answering the
non-spam verdict and an oracle assistant answering the reply text, the
condition equivalence holds on the verdict and the run of the
conditional-routing workflow never starts handle_spam. -/
theorem C2_conditional_routing_witness :
    sampleDetections "oktext" = some ⟨false, "legitimate", "the email"⟩
    ∧ (get_condition sampleDetections false (FlowMsg.response "oktext") = true
        ↔ (DetectionResult.mk false "legitimate" "the email").is_spam = false)
    ∧ WEvent.started "handle_spam"
        ∉ (runW (controlFlowWorkflow sampleDetections sampleEmails
            (fun _ => "oktext") (fun _ => "replytext")) 10
            (FlowMsg.request [⟨"user", "email body"⟩] true)).events :=
  ⟨by decide,
   (C2_conditional_routing sampleDetections sampleEmails
      (fun _ => "oktext") (fun _ => "replytext")
      (FlowMsg.request [⟨"user", "email body"⟩] true) "oktext"
      ⟨false, "legitimate", "the email"⟩ ⟨false, "legitimate", "the email"⟩
      (by decide) (by decide) rfl).1,
   (C2_conditional_routing sampleDetections sampleEmails
      (fun _ => "oktext") (fun _ => "replytext")
      (FlowMsg.request [⟨"user", "email body"⟩] true) "oktext"
      ⟨false, "legitimate", "the email"⟩ ⟨false, "legitimate", "the email"⟩
      (by decide) (by decide) rfl).2.2.2⟩
